import Mathlib

/-!
Formal model of the ASTControl2 device-control core.

Shallow embedding of the Python modules `modules/mount_module.py`,
`modules/guide_module.py`, `modules/arduino_module.py`,
`utilities/indigo_json_client.py` and `utilities/logger.py`.

Python floats are modelled as rationals (exact for the dyadic inputs
considered), Python ints as `Int`/`Nat`, Python strings as `String`.
Network and device I/O is modelled by explicit outcome parameters:
each fallible call takes a description of what the peer / OS did and
the embedded function computes the state, return value, log lines and
raised exception exactly as the Python control flow does.
-/

/- ---------- Python string primitives ---------- -/

/-- Models Python `str.lower` (ASCII inputs). -/
def pyLower (s : String) : String := ⟨s.data.map Char.toLower⟩

/-- Models Python `str.upper` (ASCII inputs). -/
def pyUpper (s : String) : String := ⟨s.data.map Char.toUpper⟩

/-- Models Python `str.startswith`. -/
def pyStartsWith (s pre : String) : Bool := pre.data.isPrefixOf s.data

/-- Models Python `int(x)` on a float: truncation toward zero. -/
def pyIntTrunc (q : ℚ) : ℤ := if q < 0 then -⌊-q⌋ else ⌊q⌋

/-- Left-pad a digit string with zeros to width `w`
(the padding part of Python zero-padded format specs). -/
def padZeros (w : ℕ) (s : String) : String :=
  if s.length < w then (⟨List.replicate (w - s.length) '0'⟩ : String) ++ s else s

/-- Models Python `f"{n:02}"` for an int `n`
(zero padding goes between the sign and the digits). -/
def pyFormatInt2 (n : ℤ) : String :=
  if n < 0 then ("-") ++ padZeros 1 (toString n.natAbs)
  else padZeros 2 (toString n.natAbs)

/-- Round `q * 100` to the nearest integer, ties to even — the rounding
CPython applies when formatting a float with two decimal places
(exact for the dyadic values produced by the coordinate formatters). -/
def roundHalfEvenCents (q : ℚ) : ℤ :=
  let x := q * 100
  let f := ⌊x⌋
  let r := x - (f : ℚ)
  if r < 1/2 then f else if 1/2 < r then f + 1 else if f % 2 = 0 then f else f + 1

/-- Models Python `f"{q:05.2f}"` for the nonnegative seconds component
(`0 ≤ q < 60`): two decimals, whole field zero-padded to width 5. -/
def pyFormatSec (q : ℚ) : String :=
  let c := (roundHalfEvenCents q).toNat
  padZeros 2 (toString (c / 100)) ++ (".") ++ padZeros 2 (toString (c % 100))

/- ---------- mount_module.py : coordinate formatters ---------- -/

/-- Embeds `MountControl.format_ra`: decimal hours to `HH:MM:SS.ss`,
`None` (modelled as `Option.none`) to the fixed placeholder. -/
def format_ra (ra_h : Option ℚ) : String :=
  match ra_h with
  | none => "--:--:--"
  | some r =>
    let hours := pyIntTrunc r
    let minutes_f := (r - (hours : ℚ)) * 60
    let minutes := pyIntTrunc minutes_f
    let seconds := (minutes_f - (minutes : ℚ)) * 60
    pyFormatInt2 hours ++ (":") ++ pyFormatInt2 minutes ++ (":") ++ pyFormatSec seconds

/-- Embeds `MountControl.format_dec`: decimal degrees to `±DD:MM:SS.ss`,
`None` to the fixed placeholder. -/
def format_dec (dec_deg : Option ℚ) : String :=
  match dec_deg with
  | none => "--:--:--"
  | some v =>
    let sign := if v < 0 then ("-") else ("+")
    let d := |v|
    let degrees := pyIntTrunc d
    let minutes_f := (d - (degrees : ℚ)) * 60
    let minutes := pyIntTrunc minutes_f
    let seconds := (minutes_f - (minutes : ℚ)) * 60
    sign ++ pyFormatInt2 degrees ++ (":") ++ pyFormatInt2 minutes ++ (":") ++ pyFormatSec seconds

/- ---------- mount_module.py : nudge (pulse) model ---------- -/

/-- Embeds `MountControl._map_ui_rate`: UI rate token to Agent slew-rate
member; `(ui_rate or "solar")` treats the empty string as `"solar"`. -/
def mapUiRate (ui_rate : String) : String :=
  let ui := pyLower (if ui_rate = "" then ("solar") else ui_rate)
  if ui = "slow" then ("CENTERING")
  else if ui = "fast" then ("MAX")
  else ("GUIDE")

/-- Outbound switch-vector messages the nudge path can write
(`newSwitchVector` payloads of `_set_slew_rate_switch` and `_pulse`). -/
inductive SendMsg where
  | slewRate (guide centering find max : Bool)
  | motionRA (west east : Bool)
  | motionDec (north south : Bool)
  deriving DecidableEq, Repr

/-- Embeds `MountControl._set_slew_rate_switch`: the one-hot
`MOUNT_SLEW_RATE` item set for a UI rate token. -/
def slewRateMsg (rate : String) : SendMsg :=
  let want := mapUiRate rate
  .slewRate (want = "GUIDE") (want = "CENTERING") (want = "FIND") (want = "MAX")

/-- Observable events of one `nudge` call executed to completion
(main body followed by the `_pulse` body, in program order). -/
inductive NudgeEvent where
  | cancelPrior
  | graceSleep
  | activate
  | send (m : SendMsg)
  | logInvalid (d : String)
  | hold (ms : ℤ)
  | deactivate
  deriving DecidableEq, Repr

/-- Embeds the duration clamp of `MountControl.nudge`:
`ms = max(20, min(int(ms), 5000))`. -/
def nudgeClamp (ms : ℤ) : ℤ := max 20 (min ms 5000)

/-- Embeds the `_pulse` closure of `MountControl.nudge`: set the slew rate,
start motion on the validated axis (an invalid direction is logged and the
body returns), hold until elapsed duration or cancellation, and in the
`finally` block stop the axis used and clear the active flag. -/
def pulseBody (dir : String) (ms : ℤ) (rate : String) : List NudgeEvent :=
  [.send (slewRateMsg rate)] ++
  (if dir = "east" ∨ dir = "west" then
    [.send (.motionRA (dir = "west") (dir = "east")), .hold ms,
     .send (.motionRA false false), .deactivate]
  else if dir = "north" ∨ dir = "south" then
    [.send (.motionDec (dir = "north") (dir = "south")), .hold ms,
     .send (.motionDec false false), .deactivate]
  else [.logInvalid dir, .deactivate])

/-- Embeds `MountControl.nudge` as its event trace: cancel any prior pulse
(flag cleared), 10 ms grace sleep, mark active, then run the pulse body
with the lowercased direction and clamped duration. -/
def nudgeTrace (direction : String) (ms : ℤ) (rate : String) : List NudgeEvent :=
  let d := pyLower direction
  let m := nudgeClamp ms
  [.cancelPrior, .graceSleep, .activate] ++ pulseBody d m rate

/-- Value of `_pulse_active` after the events `es`, starting from `b`. -/
def pulseActiveAfter (es : List NudgeEvent) (b : Bool) : Bool :=
  es.foldl
    (fun a e =>
      match e with
      | .cancelPrior => false
      | .activate => true
      | .deactivate => false
      | _ => a) b

/-- Whether an event writes a motion switch vector
(`MOUNT_MOTION_RA` or `MOUNT_MOTION_DEC`). -/
def isMotionSend : NudgeEvent → Bool
  | .send (.motionRA _ _) => true
  | .send (.motionDec _ _) => true
  | _ => false

/- ---------- guide_module.py : lock / deadband / refractory ---------- -/

/-- Embeds the lock-streak update of `AutoGuider._guide`:
`min(streak + 1, hold)` inside the lock radius, `max(streak - 1, 0)`
outside (natural subtraction models the floor at 0). -/
def lockStep (lockRadius : ℚ) (hold : ℕ) (streak : ℕ) (r : ℚ) : ℕ :=
  if r ≤ lockRadius then min (streak + 1) hold else streak - 1

/-- Embeds the lock recomputation of `AutoGuider._guide`:
`locked = streak >= hold`, recomputed on every iteration. -/
def lockedOf (hold streak : ℕ) : Bool := decide (hold ≤ streak)

/-- Lock streak after feeding a sequence of error radii through
`lockStep`, starting from `init`. -/
def lockRun (lockRadius : ℚ) (hold : ℕ) (rs : List ℚ) (init : ℕ) : ℕ :=
  rs.foldl (lockStep lockRadius hold) init

/-- Embeds the per-axis correction gate of `AutoGuider._guide` for one
axis: no correction inside the deadband; otherwise fire exactly when the
axis error exceeds the deadband and the per-axis refractory interval has
elapsed, recording the pulse time. Returns (fired, new last-pulse time);
times are in seconds, the interval in milliseconds, as in the source. -/
def guideAxisStep (deadband interval : ℚ) (axisErrAbs r : ℚ) (last now : ℚ) :
    Bool × ℚ :=
  if r ≤ deadband then (false, last)
  else if deadband < axisErrAbs ∧ (now - last) * 1000 ≥ interval then (true, now)
  else (false, last)

/- ---------- logger.py and indigo_json_client.py ---------- -/

/-- Exceptions relevant to the protocol client
(`BrokenPipeError` and `ConnectionResetError` are `OSError` subclasses
in Python; `TypeError` is not). -/
inductive PyExc where
  | typeError
  | brokenPipe
  | osError
  | connectionReset
  | socketTimeout
  deriving DecidableEq, Repr

/-- Parameter count of `emit_log` in `utilities/logger.py`
(`def emit_log(msg)`). -/
def emitLogParamCount : ℕ := 1

/-- Result of a Python positional call: `TypeError` when the argument
count does not match the parameter count. -/
def pyCallRaises (paramCount argCount : ℕ) : Option PyExc :=
  if argCount = paramCount then none else some .typeError

/-- Decoded JSON message as `_dispatch` sees it: the optional `action`
and `name` fields (other fields are irrelevant to dispatch). -/
structure PyMsg where
  action : Option String
  name : Option String
  deriving DecidableEq, Repr

/-- Embeds `msg.get("action") or msg.get("name")` (assuming non-empty
string values, so Python falsiness coincides with `None`-ness). -/
def msgKind (m : PyMsg) : Option String := m.action.or m.name

/-- Embeds `IndigoJSONClient._dispatch` for one line. `parse` models
`json.loads` (`none` = `json.JSONDecodeError`); `callbacks` is the set of
registered kinds. Returns the kind whose callback was invoked, and the
exception escaping `_dispatch`. On a parse failure the handler runs
`emit_log("[INDIGO] Failed to parse:", line)` — two positional arguments
against the one-parameter `emit_log`, hence a `TypeError`. -/
def dispatchLine (parse : String → Option PyMsg) (callbacks : List String)
    (line : String) : Option String × Option PyExc :=
  match parse line with
  | some msg =>
    match msgKind msg with
    | some k => if k ∈ callbacks then (some k, none) else (none, none)
    | none => (none, none)
  | none => (none, pyCallRaises emitLogParamCount 2)

/-- Exception classes caught by the `except` clause wrapped around the
whole `while` loop of `IndigoJSONClient._listen_loop`
(`ConnectionResetError, socket.timeout, OSError`). -/
def listenCaught (e : PyExc) : Bool :=
  match e with
  | .typeError => false
  | _ => true

/-- Embeds `IndigoJSONClient._listen_loop` processing a list of complete
input lines: each line is passed to `_dispatch`; any exception escaping
`_dispatch` aborts the `while` loop (caught or not, the `finally` clause
then sets `connected = False` and the loop never resumes). Returns the
kinds dispatched to callbacks and the final `connected` flag. -/
def listenLines (parse : String → Option PyMsg) (callbacks : List String) :
    List String → List String × Bool
  | [] => ([], true)
  | l :: rest =>
    match dispatchLine parse callbacks l with
    | (k, none) =>
      let r := listenLines parse callbacks rest
      (k.toList ++ r.1, r.2)
    | (_, some _) => ([], false)

/-- Connection-relevant fields of `IndigoJSONClient`. -/
structure IndigoSt where
  connected : Bool
  hasSock : Bool
  deriving DecidableEq, Repr

/-- Result of `IndigoJSONClient.send`: new state, emitted log lines, and
the exception propagated to the caller (if any). -/
structure SendRes where
  st : IndigoSt
  logged : List String
  raised : Option PyExc
  deriving DecidableEq, Repr

/-- Embeds `IndigoJSONClient.send`. `ioFail` models the outcome of
`sock.sendall` (`none` = success; `some e` with `e` a `BrokenPipeError`
or `OSError`, both matched by the `except` clause). When not connected
the send is skipped; on a send failure the client is marked
disconnected, and with `quiet=False` the exception is re-raised. -/
def indigoSend (st : IndigoSt) (quiet : Bool) (ioFail : Option PyExc) : SendRes :=
  if ¬st.connected ∨ ¬st.hasSock then
    ⟨st, if quiet then [] else ["[INDIGO] Not connected — skipping send."], none⟩
  else
    match ioFail with
    | none => ⟨st, [], none⟩
    | some e =>
      ⟨{ st with connected := false },
       if quiet then [] else ["[INDIGO] Send failed."],
       if quiet then none else some e⟩

/-- Embeds the retry loop of `IndigoJSONClient.connect` (with the stop
flag never set during the call): while `retry_count < max_retries`,
attempt the TCP connection; on success return, on failure increment
`retry_count`. `succ n` tells whether the attempt made with
`retry_count = n` succeeds. Returns (number of attempts performed,
final `connected` flag). -/
def connectLoop (succ : ℕ → Bool) (maxRetries retryCount : ℕ) : ℕ × Bool :=
  if h : retryCount < maxRetries then
    if succ retryCount then (1, true)
    else
      let r := connectLoop succ maxRetries (retryCount + 1)
      (r.1 + 1, r.2)
  else (0, false)
termination_by maxRetries - retryCount
decreasing_by omega

/- ---------- arduino_module.py ---------- -/

/-- Fields of `ArduinoTCPClient` relevant to connect/send. -/
structure ArduinoSt where
  hasSock : Bool
  connected : Bool
  failCount : ℕ
  warnSent : Bool
  deriving DecidableEq, Repr

/-- The `max_warns` cap of `ArduinoTCPClient` (3). -/
def maxWarns : ℕ := 3

/-- Embeds `ArduinoTCPClient._connect`: a no-op once `fail_count`
reaches `max_warns`; on success reset the failure bookkeeping; on
failure mark disconnected, bump `fail_count` and drop the socket. -/
def arduinoConnect (st : ArduinoSt) (connectOk : Bool) : ArduinoSt :=
  if maxWarns ≤ st.failCount then st
  else if connectOk then
    { hasSock := true, connected := true, failCount := 0, warnSent := false }
  else
    { st with hasSock := false, connected := false, failCount := st.failCount + 1 }

/-- Outcome of the request/response exchange inside
`ArduinoTCPClient.send` once a socket exists: a full newline-terminated
reply, or an exception from `sendall`/`recv` (including the explicit
`ConnectionError` on a zero-length read). -/
inductive XferOutcome where
  | ok (resp : String)
  | sendErr
  | recvClosed
  | recvErr
  deriving DecidableEq, Repr

/-- Result of `ArduinoTCPClient.send`: response string, new state, and
the exception propagated to the caller (if any). -/
structure ArduinoSendRes where
  response : String
  st : ArduinoSt
  raised : Option PyExc
  deriving DecidableEq, Repr

/-- Models Python `str.strip` (whitespace trim on both ends). -/
def pyStrip (s : String) : String :=
  ⟨((s.data.dropWhile Char.isWhitespace).reverse.dropWhile Char.isWhitespace).reverse⟩

/-- Embeds `ArduinoTCPClient.send`: lazily connect when no socket exists
(returning `""` if still absent), then exchange one line; the `except
Exception` clause turns every transfer failure into a logged warning, a
dropped socket, `connected = False` and an empty response — no exception
leaves the method. -/
def arduinoSend (st : ArduinoSt) (connectOk : Bool) (x : XferOutcome) :
    ArduinoSendRes :=
  let st1 := if st.hasSock then st else arduinoConnect st connectOk
  if ¬st1.hasSock then ⟨"", st1, none⟩
  else
    match x with
    | .ok resp => ⟨pyStrip resp, { st1 with connected := true }, none⟩
    | _ => ⟨"", { st1 with connected := false, hasSock := false }, none⟩

/-- Module-level actuator state dict (`config.ARDUINO_STATE`). -/
structure ActuatorState where
  dome : String
  etalon1 : ℤ
  etalon2 : ℤ
  connected : Bool
  deriving DecidableEq, Repr

/-- Initial actuator state from `utilities/config.py`. -/
def arduinoInitState : ActuatorState :=
  ⟨"UNKNOWN", 90, 90, false⟩

/-- Embeds `set_dome`: validate the command, send `dome 180`/`dome 0`,
and on a `dome:`-prefixed response record `state_cmd.upper()` as the dome
status. `resp` models the reply returned by `_send`. -/
def set_dome (state_cmd : String) (resp : String) (st : ActuatorState) :
    Bool × ActuatorState :=
  if ¬(state_cmd = "open" ∨ state_cmd = "close") then (false, st)
  else if pyStartsWith resp ("dome:") then
    (true, { st with dome := pyUpper state_cmd })
  else (false, st)

/-- Embeds the dome classification of `_poll_loop`:
raw angle `>= 170` is `OPEN`, `<= 10` is `CLOSED`, otherwise
`Moving (<angle>°)`. -/
def classifyDome (dome_pos : ℤ) : String :=
  if 170 ≤ dome_pos then ("OPEN")
  else if dome_pos ≤ 10 then ("CLOSED")
  else ("Moving (") ++ toString dome_pos ++ ("°)")

/-- Membership in the dome-status enum of the specification:
`{Open, Closed, Moving(angleDeg), Unknown}` in this module's string
encoding. -/
def DomeEnumMember (s : String) : Prop :=
  s = "OPEN" ∨ s = "CLOSED" ∨ s = "UNKNOWN" ∨
    ∃ a : ℤ, s = ("Moving (") ++ toString a ++ ("°)")

/- ---------- C5 : connect retry bound ---------- -/

/-- Helper: a permanently refused connection makes the retry loop perform
one attempt per remaining retry budget and end disconnected. -/
theorem connectLoop_refused_aux (k : ℕ) :
    ∀ r : ℕ, connectLoop (fun _ => false) (r + k) r = (k, false) := by
  induction k with
  | zero =>
    intro r
    rw [connectLoop]
    simp
  | succ n ih =>
    intro r
    rw [connectLoop]
    have hr : r < r + (n + 1) := by omega
    rw [dif_pos hr]
    have : r + (n + 1) = (r + 1) + n := by omega
    simp only [this, ih (r + 1)]
    simp

/-- Claim C5: with `max_retries = N` and a peer that refuses every
connection attempt, `IndigoJSONClient.connect` (started with the fresh
client's `retry_count = 0` and a clear stop flag) performs exactly `N`
attempts and then stops with `connected = false`. -/
theorem connect_retry_bound (N : ℕ) :
    connectLoop (fun _ => false) N 0 = (N, false) := by
  have := connectLoop_refused_aux N 0
  simpa using this

/- ---------- C4 : exception containment ---------- -/

/-- Claim C4 counterexample: a caller of `IndigoJSONClient.send` with
`quiet=False` whose `sendall` hits a broken pipe does receive the
exception (the `except` clause re-raises it), so device I/O errors are
not contained for every public operation. -/
theorem send_unquiet_raises :
    (indigoSend ⟨true, true⟩ false (some PyExc.brokenPipe)).raised ≠ none := by
  decide

/-- Claim C4 (amended): device I/O failures are contained — no exception
reaches the caller — for every `ArduinoTCPClient.send` call and for every
`IndigoJSONClient.send` call with `quiet=True` (the mode every
`MountControl` operation uses); only `quiet=False` protocol sends
re-raise the socket error. -/
theorem device_errors_contained :
    (∀ (st : IndigoSt) (f : Option PyExc), (indigoSend st true f).raised = none) ∧
    (∀ (st : ArduinoSt) (c : Bool) (x : XferOutcome),
      (arduinoSend st c x).raised = none) := by
  constructor
  · intro st f
    unfold indigoSend
    split
    · rfl
    · cases f <;> rfl
  · intro st c x
    unfold arduinoSend
    dsimp only
    split <;> split <;> first | rfl | (cases x <;> rfl)

/- ---------- C3 : parse failure handling ---------- -/

/-- Concrete stand-in for `json.loads` on a two-line sample: the line
`"notjson"` fails to parse (`JSONDecodeError`), the line `"goodline"`
decodes to a message whose `name` field is `setNumberVector`. -/
def sampleParse : String → Option PyMsg := fun s =>
  if s = "goodline" then some ⟨none, some ("setNumberVector")⟩ else none

/-- Claim C3 evaluated at the failing input: a line that fails to parse
does not leave the session running. The `except json.JSONDecodeError`
handler calls `emit_log` with two positional arguments against the
one-parameter `emit_log`, raising `TypeError`; that exception is not in
the listener's caught classes, the read loop dies with
`connected = false`, and a subsequent well-formed line is never
dispatched — although the same well-formed line alone would have been. -/
theorem parse_error_terminates_listener :
    (dispatchLine sampleParse [("setNumberVector")] ("notjson")).2
      = some PyExc.typeError ∧
    listenCaught PyExc.typeError = false ∧
    listenLines sampleParse [("setNumberVector")] [("notjson"), ("goodline")]
      = ([], false) ∧
    listenLines sampleParse [("setNumberVector")] [("goodline")]
      = ([("setNumberVector")], true) := by
  decide

/- ---------- C6 : dome status enum ---------- -/

/-- Claim C6 evaluated at the failing input: the poll loop's classifier
always yields an enum member, but the `set_dome("close")` success path
stores `"close".upper() = "CLOSE"`, which is not a member of
`{OPEN, CLOSED, Moving(angle), UNKNOWN}` (the poll loop itself writes
`"CLOSED"`). -/
theorem dome_status_close_off_enum :
    (∀ pos : ℤ, DomeEnumMember (classifyDome pos)) ∧
    (set_dome ("close") ("dome:0") arduinoInitState).1 = true ∧
    (set_dome ("close") ("dome:0") arduinoInitState).2.dome = "CLOSE" ∧
    ¬DomeEnumMember "CLOSE" := by
  refine ⟨?_, by decide, by decide, ?_⟩
  · intro pos
    unfold classifyDome DomeEnumMember
    split
    · exact Or.inl rfl
    · split
      · exact Or.inr (Or.inl rfl)
      · exact Or.inr (Or.inr (Or.inr ⟨pos, rfl⟩))
  · rintro (h | h | h | ⟨a, ha⟩)
    · exact absurd h (by decide)
    · exact absurd h (by decide)
    · exact absurd h (by decide)
    · have hl := congrArg String.length ha
      rw [String.length_append, String.length_append] at hl
      have e1 : ("CLOSE").length = 5 := by decide
      have e2 : ("Moving (").length = 8 := by decide
      have e3 : ("°)").length = 2 := by decide
      rw [e1, e2, e3] at hl
      omega

/- ---------- C2 : lock hysteresis ---------- -/

/-- Claim C2 counterexample: with the default tunables
(`lock_radius_px = 8`, `lock_hold_frames = 10`), ten in-radius frames
(`r = 0`) set `locked`, but the very next frame with `r = 9` (slightly
above the lock radius) already clears it — `locked` is recomputed as
`streak >= hold` each iteration, so it does not stay true through the
above-radius frame as claimed. -/
theorem lock_flicker_clears_immediately :
    lockedOf 10 (lockRun 8 10 (List.replicate 10 0) 0) = true ∧
    lockedOf 10 (lockStep 8 10 (lockRun 8 10 (List.replicate 10 0) 0) 9) = false := by
  decide

/-- Helper: feeding `i` in-radius frames through the streak update from a
streak that is at most `hold` yields `min (s + i) hold`. -/
theorem lockRun_replicate (radius : ℚ) (hold : ℕ) (r : ℚ) (hr : r ≤ radius) :
    ∀ i s : ℕ, s ≤ hold →
      lockRun radius hold (List.replicate i r) s = min (s + i) hold := by
  intro i
  induction i with
  | zero =>
    intro s hs
    simp [lockRun]
    omega
  | succ n ih =>
    intro s hs
    rw [List.replicate_succ]
    have hstep : lockRun radius hold (r :: List.replicate n r) s
        = lockRun radius hold (List.replicate n r) (lockStep radius hold s r) := rfl
    rw [hstep]
    simp only [lockStep, if_pos hr]
    rw [ih (min (s + 1) hold) (by omega)]
    omega

/-- Claim C2 (amended): from a zero streak, a run of in-radius radii makes
`locked` true exactly at the `holdFrames`-th iteration (false at every
earlier one); one subsequent radius slightly above the lock radius
decrements the streak by one to `holdFrames - 1`, which immediately
clears `locked` (the lock does not survive the above-radius frame). -/
theorem lock_streak_hysteresis (radius : ℚ) (hold : ℕ) (r rBad : ℚ)
    (hhold : 1 ≤ hold) (hin : r ≤ radius) (hout : radius < rBad) :
    (∀ i, i < hold →
      lockedOf hold (lockRun radius hold (List.replicate i r) 0) = false) ∧
    lockedOf hold (lockRun radius hold (List.replicate hold r) 0) = true ∧
    lockStep radius hold (lockRun radius hold (List.replicate hold r) 0) rBad
      = hold - 1 ∧
    lockedOf hold
      (lockStep radius hold (lockRun radius hold (List.replicate hold r) 0) rBad)
      = false := by
  have hrun : ∀ i : ℕ,
      lockRun radius hold (List.replicate i r) 0 = min i hold := by
    intro i
    have := lockRun_replicate radius hold r hin i 0 (by omega)
    simpa using this
  have hfull : lockRun radius hold (List.replicate hold r) 0 = hold := by
    rw [hrun hold]; omega
  have hbad : lockStep radius hold hold rBad = hold - 1 := by
    simp only [lockStep, if_neg (not_le.mpr hout)]
  refine ⟨?_, ?_, ?_, ?_⟩
  · intro i hi
    rw [hrun i]
    simp only [lockedOf, decide_eq_false_iff_not]
    omega
  · rw [hfull]
    simp [lockedOf]
  · rw [hfull, hbad]
  · rw [hfull, hbad]
    simp only [lockedOf, decide_eq_false_iff_not]
    omega

/-- Check of `lock_streak_hysteresis` at the default guider tunables
(lock radius 8, hold 10, in-radius r = 0, above-radius r = 9). -/
theorem lock_streak_hysteresis_check :
    lockedOf 10 (lockRun 8 10 (List.replicate 9 0) 0) = false ∧
    lockedOf 10 (lockRun 8 10 (List.replicate 10 0) 0) = true ∧
    lockStep 8 10 (lockRun 8 10 (List.replicate 10 0) 0) 9 = 9 ∧
    lockedOf 10 (lockStep 8 10 (lockRun 8 10 (List.replicate 10 0) 0) 9) = false := by
  obtain ⟨h1, h2, h3, h4⟩ :=
    lock_streak_hysteresis 8 10 0 9 (by decide) (by decide) (by decide)
  exact ⟨h1 9 (by decide), h2, h3, h4⟩

/- ---------- C7 : per-axis refractory ---------- -/

/-- Claim C7: two qualifying correction opportunities on one axis, the
second within the refractory interval of the first, produce exactly one
nudge on that axis — the first fires and records its time, the second is
suppressed and leaves the recorded time unchanged. -/
theorem axis_refractory_single_nudge
    (deadband interval a1 r1 a2 r2 t0 t1 t2 : ℚ)
    (h1r : deadband < r1) (h1a : deadband < a1)
    (h1gap : (t1 - t0) * 1000 ≥ interval)
    (h2r : deadband < r2) (h2a : deadband < a2)
    (h2gap : (t2 - t1) * 1000 < interval) :
    guideAxisStep deadband interval a1 r1 t0 t1 = (true, t1) ∧
    guideAxisStep deadband interval a2 r2
      (guideAxisStep deadband interval a1 r1 t0 t1).2 t2 = (false, t1) := by
  have e1 : guideAxisStep deadband interval a1 r1 t0 t1 = (true, t1) := by
    unfold guideAxisStep
    rw [if_neg (not_le.mpr h1r), if_pos ⟨h1a, h1gap⟩]
  have e2 : guideAxisStep deadband interval a2 r2 t1 t2 = (false, t1) := by
    unfold guideAxisStep
    rw [if_neg (not_le.mpr h2r),
        if_neg (fun hc => absurd hc.2 (not_le.mpr h2gap))]
  rw [e1]
  exact ⟨rfl, e2⟩

/-- Check of `axis_refractory_single_nudge` at concrete values
(deadband 5 px, refractory 2000 ms, axis error 10 px, pulses at
t = 2 s and t = 3 s after a last pulse at t = 0 s). -/
theorem axis_refractory_single_nudge_check :
    guideAxisStep 5 2000 10 10 0 2 = (true, 2) ∧
    guideAxisStep 5 2000 10 10 (guideAxisStep 5 2000 10 10 0 2).2 3
      = (false, 2) := by
  exact axis_refractory_single_nudge 5 2000 10 10 10 10 0 2 3
    (by norm_num) (by norm_num) (by norm_num)
    (by norm_num) (by norm_num) (by norm_num)

/- ---------- C9 : duration clamp ---------- -/

/-- Claim C9: the duration clamp of `nudge` is idempotent and monotone,
and every hold phase a `nudge` call ever enters lasts a clamped duration
within [20, 5000] ms. -/
theorem nudge_clamp_bounds :
    (∀ d : ℤ, nudgeClamp (nudgeClamp d) = nudgeClamp d) ∧
    (∀ d1 d2 : ℤ, d1 ≤ d2 → nudgeClamp d1 ≤ nudgeClamp d2) ∧
    (∀ (dir rate : String) (ms m : ℤ),
      NudgeEvent.hold m ∈ nudgeTrace dir ms rate → 20 ≤ m ∧ m ≤ 5000) := by
  refine ⟨?_, ?_, ?_⟩
  · intro d
    unfold nudgeClamp
    omega
  · intro d1 d2 h
    unfold nudgeClamp
    omega
  · intro dir rate ms m hm
    unfold nudgeTrace pulseBody at hm
    dsimp only at hm
    split_ifs at hm <;> simp at hm <;>
      · subst hm
        unfold nudgeClamp
        omega

/-- Check of `nudge_clamp_bounds` at concrete inputs: clamping 7 twice,
monotonicity at 3 ≤ 9999, and the hold duration of
`nudge("east", 9999, "solar")`. -/
theorem nudge_clamp_bounds_check :
    nudgeClamp (nudgeClamp 7) = nudgeClamp 7 ∧
    nudgeClamp 3 ≤ nudgeClamp 9999 ∧
    (20 ≤ (5000 : ℤ) ∧ (5000 : ℤ) ≤ 5000) := by
  exact ⟨nudge_clamp_bounds.1 7,
    nudge_clamp_bounds.2.1 3 9999 (by decide),
    nudge_clamp_bounds.2.2 ("east") ("solar") 9999 5000 (by decide)⟩

/- ---------- C10 : nudge with an invalid direction ---------- -/

/-- Claim C10: `nudge` with a direction outside
{north, south, east, west} is not a pure no-op — the trace starts by
cancelling any in-flight pulse (before the direction is examined), the
pulse body still writes the slew-rate vector but no motion switch
vector, logs the invalid direction, and ends with the pulse-active flag
false whatever it was before. -/
theorem nudge_invalid_direction_trace
    (dir : String) (ms : ℤ) (rate : String) (b : Bool)
    (h1 : pyLower dir ≠ "north") (h2 : pyLower dir ≠ "south")
    (h3 : pyLower dir ≠ "east") (h4 : pyLower dir ≠ "west") :
    (nudgeTrace dir ms rate).head? = some NudgeEvent.cancelPrior ∧
    NudgeEvent.send (slewRateMsg rate) ∈ nudgeTrace dir ms rate ∧
    NudgeEvent.logInvalid (pyLower dir) ∈ nudgeTrace dir ms rate ∧
    (nudgeTrace dir ms rate).filter isMotionSend = [] ∧
    pulseActiveAfter (nudgeTrace dir ms rate) b = false := by
  have htr : nudgeTrace dir ms rate =
      [.cancelPrior, .graceSleep, .activate, .send (slewRateMsg rate),
       .logInvalid (pyLower dir), .deactivate] := by
    simp only [nudgeTrace, pulseBody]
    rw [if_neg (fun h => h.elim h3 h4), if_neg (fun h => h.elim h1 h2)]
    rfl
  rw [htr]
  refine ⟨rfl, by simp, by simp, ?_, rfl⟩
  simp only [List.filter, isMotionSend, slewRateMsg]

/- ---------- C8 : coordinate formatters ---------- -/

/-- Claim C8: the coordinate formatters (pure functions, hence
deterministic) yield the specified placeholder for unset values and the
specified sexagesimal strings for 13.5 h and -5.25° (both dyadic, so the
rational model is exact for the float source). -/
theorem format_coordinates_values :
    format_ra none = "--:--:--" ∧
    format_ra (some (27/2)) = "13:30:00.00" ∧
    format_dec (some (-(21/4))) = "-05:15:00.00" ∧
    format_dec none = "--:--:--" := by
  have e5 : roundHalfEvenCents 0 = 0 := by
    simp only [roundHalfEvenCents]
    norm_num
  have e6 : pyFormatSec 0 = "00.00" := by
    simp only [pyFormatSec, e5]
    decide
  refine ⟨rfl, ?_, ?_, rfl⟩
  · have e1 : pyIntTrunc ((27:ℚ)/2) = 13 := by
      simp only [pyIntTrunc]
      rw [if_neg (by norm_num)]
      norm_num
    have e2 : (((27:ℚ)/2) - ((13:ℤ) : ℚ)) * 60 = 30 := by
      push_cast
      norm_num
    have e3 : pyIntTrunc (30:ℚ) = 30 := by
      simp only [pyIntTrunc]
      rw [if_neg (by norm_num)]
      norm_num
    have e4 : ((30:ℚ) - ((30:ℤ) : ℚ)) * 60 = 0 := by
      push_cast
      ring
    simp only [format_ra, e1, e2, e3, e4, e6]
    decide
  · have ed : |(-(21/4) : ℚ)| = 21/4 := by
      rw [abs_of_neg (by norm_num : (-(21/4) : ℚ) < 0)]
      norm_num
    have e1 : pyIntTrunc ((21:ℚ)/4) = 5 := by
      simp only [pyIntTrunc]
      rw [if_neg (by norm_num)]
      norm_num
    have e2 : (((21:ℚ)/4) - ((5:ℤ) : ℚ)) * 60 = 15 := by
      push_cast
      norm_num
    have e3 : pyIntTrunc (15:ℚ) = 15 := by
      simp only [pyIntTrunc]
      rw [if_neg (by norm_num)]
      norm_num
    have e4 : ((15:ℚ) - ((15:ℤ) : ℚ)) * 60 = 0 := by
      push_cast
      ring
    simp only [format_dec, ed, e1, e2, e3, e4, e6]
    rw [if_pos (by norm_num : (-(21/4) : ℚ) < 0)]
    decide

/-- Check of `nudge_invalid_direction_trace` at the concrete call
`nudge("up", 200, "solar")`. -/
theorem nudge_invalid_direction_trace_check :
    (nudgeTrace ("up") 200 ("solar")).head? = some NudgeEvent.cancelPrior ∧
    NudgeEvent.send (slewRateMsg ("solar")) ∈ nudgeTrace ("up") 200 ("solar") ∧
    NudgeEvent.logInvalid (pyLower ("up")) ∈ nudgeTrace ("up") 200 ("solar") ∧
    (nudgeTrace ("up") 200 ("solar")).filter isMotionSend = [] ∧
    pulseActiveAfter (nudgeTrace ("up") 200 ("solar")) true = false :=
  nudge_invalid_direction_trace ("up") 200 ("solar") true
    (by decide) (by decide) (by decide) (by decide)
